import Mathlib

/-!
Shallow embedding of
`library_management/doctype/book_suggestion_request/book_suggestion_request.py`
(class `BookSuggestionRequest`).

The framework-owned persistent state (DocShare records and ToDo records) is
modelled explicitly as `WorldState`; the framework primitives used by the
controller (`frappe.share.add`, `frappe.share.remove`, `frappe.db.exists`,
`frappe.get_all` + close loop, `todo.insert`) are modelled as pure functions
on `WorldState`.  The `try/except: pass` block of `_remove_share_permission`
is modelled with an explicit fault-injection parameter (`FaultSpec`): each
framework call inside the `try` may raise at the corresponding fault point,
in which case the effects performed so far persist and the error is returned
alongside the state, to be swallowed by the `except` clause.
-/

/-- A permission set, as the four integer flags of the Python dicts in
`WORKFLOW_CONFIG` (`{"read": 1, "write": 0, "submit": 1, "share": 1}`). -/
structure Perms where
  read : Nat
  write : Nat
  submit : Nat
  share : Nat
deriving DecidableEq

/-- A DocShare record: an access grant of a user on one document,
keyed by (share_doctype, share_name, user). -/
structure DocShare where
  share_doctype : String
  share_name : String
  user : String
  read : Nat
  write : Nat
  submit : Nat
  share : Nat
deriving DecidableEq

/-- A ToDo record (task/reminder).  `name` is the framework-assigned
primary key. -/
structure ToDo where
  name : Nat
  allocated_to : String
  reference_type : String
  reference_name : String
  description : String
  status : String
deriving DecidableEq

/-- The framework-owned persistent state touched by the controller:
all DocShare records, all ToDo records, and a counter supplying fresh
ToDo primary keys. -/
structure WorldState where
  shares : List DocShare
  todos : List ToDo
  next_todo_name : Nat
deriving DecidableEq

/-- The in-memory Book Suggestion Request document.
`previous_workflow_state = none` models the Python attribute
`_previous_workflow_state` being absent (never set by `before_save`);
`some none` models it being set to Python `None` (new document);
`some (some s)` models it being set to the string `s`.
Approver fields use `""` for an unset (falsy) value. -/
structure BookSuggestionRequest where
  doctype : String
  name : String
  workflow_state : String
  librarian : String
  hod : String
  library_convener : String
  previous_workflow_state : Option (Option String)
deriving DecidableEq

/-- One entry of `WORKFLOW_CONFIG`.  Absent dictionary keys
(`state_config.get(...)` returning `None`) are `none`. -/
structure StateConfig where
  approver_field : Option String
  task_description : Option String
  permissions : Option Perms
  previous_approver_field : Option String
deriving DecidableEq

/-- `BookSuggestionRequest.WORKFLOW_CONFIG` as a lookup function
(`WORKFLOW_CONFIG.get(self.workflow_state)`). -/
def WORKFLOW_CONFIG (s : String) : Option StateConfig :=
  if s == "Pending for Duplication Check" then
    some ⟨some "librarian", some "Duplication Check", some ⟨1, 1, 1, 1⟩, none⟩
  else if s == "Pending for HOD Approval" then
    some ⟨some "hod", some "HOD Approval", some ⟨1, 0, 1, 1⟩, some "librarian"⟩
  else if s == "Pending for Library Convener Approval" then
    some ⟨some "library_convener", some "Library Convener Approval", some ⟨1, 0, 1, 1⟩, some "hod"⟩
  else if s == "Approved" then
    some ⟨none, none, none, some "library_convener"⟩
  else if s == "Rejected" then
    some ⟨none, none, none, some "library_convener"⟩
  else
    none

/-- `self.get(fieldname)` for the three approver fields used by the config. -/
def BookSuggestionRequest.get (doc : BookSuggestionRequest) (field : String) : String :=
  if field == "librarian" then doc.librarian
  else if field == "hod" then doc.hod
  else if field == "library_convener" then doc.library_convener
  else ""

/-- Key match of a DocShare against (doctype, name, user). -/
def shareMatch (dt nm u : String) (d : DocShare) : Bool :=
  d.share_doctype == dt && d.share_name == nm && d.user == u

/-- `frappe.share.add(doctype, name, user, read, write, submit, share)`:
update the existing DocShare for the key if one exists, otherwise insert a
new one. -/
def share_add (st : WorldState) (dt nm u : String) (p : Perms) : WorldState :=
  if st.shares.any (shareMatch dt nm u) then
    { st with
      shares := st.shares.map (fun d =>
        if shareMatch dt nm u d then
          { d with read := p.read, write := p.write, submit := p.submit, share := p.share }
        else d) }
  else
    { st with shares := st.shares ++ [⟨dt, nm, u, p.read, p.write, p.submit, p.share⟩] }

/-- `frappe.share.remove(doctype, name, user)`: delete the DocShare for the
key (a no-op when none exists). -/
def share_remove (st : WorldState) (dt nm u : String) : WorldState :=
  { st with shares := st.shares.filter (fun d => !shareMatch dt nm u d) }

/-- The filter used by both `frappe.db.exists("ToDo", {...})` and
`frappe.get_all("ToDo", {...})`: a ToDo for this document, allocated to this
user, with status "Open". -/
def todoMatchOpen (dt nm u : String) (t : ToDo) : Bool :=
  t.reference_type == dt && t.reference_name == nm && t.allocated_to == u && t.status == "Open"

/-- `frappe.db.exists("ToDo", {reference_type, reference_name, allocated_to,
status: "Open"})`. -/
def todo_exists (st : WorldState) (dt nm u : String) : Bool :=
  st.todos.any (todoMatchOpen dt nm u)

/-- `frappe.get_all("ToDo", {...})`: the primary keys of the matching Open
ToDos, in storage order. -/
def open_todo_names (st : WorldState) (dt nm u : String) : List Nat :=
  (st.todos.filter (todoMatchOpen dt nm u)).map ToDo.name

/-- `todo_doc.status = "Closed"` applied to the record with primary key `n`. -/
def closeName (n : Nat) (t : ToDo) : ToDo :=
  if t.name == n then { t with status := "Closed" } else t

/-- `frappe.get_doc("ToDo", n); todo_doc.status = "Closed"; todo_doc.save()`. -/
def set_todo_closed (st : WorldState) (n : Nat) : WorldState :=
  { st with todos := st.todos.map (closeName n) }

/-- Python string interpolation of a possibly-`None` value
(`f"{task_description}"`). -/
def tdString : Option String → String
  | some s => s
  | none => "None"

/-- Fault injection for the `try` block of `_remove_share_permission`:
whether `frappe.share.remove` raises, whether `frappe.get_all` raises, and
whether the get/save of the i-th Open ToDo in the close loop raises. -/
structure FaultSpec where
  removeFault : Bool
  getAllFault : Bool
  closeFault : Nat → Bool

/-- The fault-free environment. -/
def noFaults : FaultSpec := ⟨false, false, fun _ => false⟩

/-- The `for todo in open_todos:` loop closing each fetched ToDo in order.
A fault at iteration `i` aborts the loop with an error; the closes already
performed persist. -/
def close_open_todos (f : Nat → Bool) : List Nat → Nat → WorldState → WorldState × Option String
  | [], _, st => (st, none)
  | n :: rest, i, st =>
    if f i then (st, some "close failed")
    else close_open_todos f rest (i + 1) (set_todo_closed st n)

/-- The body of the `try` block of `_remove_share_permission`: remove the
share, query the Open ToDos, close each.  Returns the state reached together
with the error raised, if any. -/
def remove_share_try (fs : FaultSpec) (doc : BookSuggestionRequest) (user : String)
    (st : WorldState) : WorldState × Option String :=
  if fs.removeFault then (st, some "share remove failed")
  else
    let st1 := share_remove st doc.doctype doc.name user
    if fs.getAllFault then (st1, some "get_all failed")
    else close_open_todos fs.closeFault (open_todo_names st1 doc.doctype doc.name user) 0 st1

/-- `_remove_share_permission(user)`: guard on falsy `user`, then the `try`
block with `except Exception: pass`.  The second component is the error
propagated to the caller (always `none`: the except clause swallows it). -/
def remove_share_permission (fs : FaultSpec) (doc : BookSuggestionRequest) (user : String)
    (st : WorldState) : WorldState × Option String :=
  if user == "" then (st, none)
  else
    let r := remove_share_try fs doc user st
    (r.1, none)

/-- `_share_and_assign(user, task_description, permissions)`: guard on falsy
`user`, `frappe.share.add`, then create a ToDo unless an Open one already
exists for this document and user. -/
def share_and_assign (doc : BookSuggestionRequest) (user : String) (td : Option String)
    (p : Perms) (st : WorldState) : WorldState :=
  if user == "" then st
  else
    let st1 := share_add st doc.doctype doc.name user p
    if todo_exists st1 doc.doctype doc.name user then st1
    else
      { st1 with
        todos := st1.todos ++ [⟨st1.next_todo_name, user, doc.doctype, doc.name,
          "Please review for " ++ tdString td ++ ": " ++ doc.name, "Open"⟩],
        next_todo_name := st1.next_todo_name + 1 }

/-- The guard `hasattr(self, '_previous_workflow_state') and
self._previous_workflow_state == self.workflow_state`.  Python `None` is
never equal to a string. -/
def stateUnchanged (doc : BookSuggestionRequest) : Bool :=
  match doc.previous_workflow_state with
  | some (some s) => s == doc.workflow_state
  | _ => false

/-- The dispatch of `_handle_workflow` after the state-change guard: config
lookup, revocation of the previous approver, grant to the next approver. -/
def handle_workflow_body (fs : FaultSpec) (doc : BookSuggestionRequest)
    (st : WorldState) : WorldState :=
  match WORKFLOW_CONFIG doc.workflow_state with
  | none => st
  | some cfg =>
    let st1 :=
      match cfg.previous_approver_field with
      | some f =>
        let prev := doc.get f
        if prev == "" then st else (remove_share_permission fs doc prev st).1
      | none => st
    match cfg.approver_field with
    | none => st1
    | some f =>
      let nxt := doc.get f
      let perms := cfg.permissions.getD ⟨1, 0, 0, 0⟩
      if nxt == "" then st1 else share_and_assign doc nxt cfg.task_description perms st1

/-- `_handle_workflow()`: skip everything when the workflow state is
unchanged from the snapshot. -/
def handle_workflow (fs : FaultSpec) (doc : BookSuggestionRequest)
    (st : WorldState) : WorldState :=
  if stateUnchanged doc then st else handle_workflow_body fs doc st

/-- The single global "Library Settings" record. -/
structure LibrarySettings where
  default_librarian : String
  default_library_convener : String
deriving DecidableEq

/-- `before_validate()`: populate `librarian` and `library_convener` from
Library Settings; `frappe.throw` (a fatal, save-aborting error) when the
settings record does not exist. -/
def before_validate (settings : Option LibrarySettings) (doc : BookSuggestionRequest) :
    Except String BookSuggestionRequest :=
  match settings with
  | none => .error "Please configure \x27Library Settings\x27 first."
  | some s =>
    .ok { doc with librarian := s.default_librarian,
                   library_convener := s.default_library_convener }

/-- `before_save()`: snapshot the stored workflow state (Python `None` for a
new document) into `_previous_workflow_state`. -/
def before_save (isNew : Bool) (dbWorkflowState : String) (doc : BookSuggestionRequest) :
    BookSuggestionRequest :=
  if isNew then { doc with previous_workflow_state := some none }
  else { doc with previous_workflow_state := some (some dbWorkflowState) }

/-- Number of Open ToDos for one (document, user) key. -/
def openCount (st : WorldState) (dt nm u : String) : Nat :=
  st.todos.countP (todoMatchOpen dt nm u)

/-- The spec invariant: at most one Open Task per (document, user) pair. -/
def AtMostOneOpen (st : WorldState) : Prop :=
  ∀ dt nm u, openCount st dt nm u ≤ 1

/-- The empty persistent state. -/
def emptyWorld : WorldState := ⟨[], [], 0⟩

/-- States reachable from the empty state by any sequence of dispatch
operations (any documents, any fault environments). -/
inductive Reachable : WorldState → Prop
  | init : Reachable emptyWorld
  | step (fs : FaultSpec) (doc : BookSuggestionRequest) {st : WorldState} :
      Reachable st → Reachable (handle_workflow fs doc st)

/-- Modelled from the spec: "Find all Open Tasks for (document, U_prev); set
each to Closed" — close an Open ToDo matching the key, leave every other
ToDo unchanged. -/
def closeIfMatch (dt nm u : String) (t : ToDo) : ToDo :=
  if todoMatchOpen dt nm u t then { t with status := "Closed" } else t

/-- The cumulative effect of the close loop on a single ToDo record. -/
def foldClose (ns : List Nat) (t : ToDo) : ToDo :=
  ns.foldl (fun a n => closeName n a) t

/-- A sample document sitting in the HOD-approval state (snapshot shows it
just moved there). -/
def docW : BookSuggestionRequest :=
  ⟨"Book Suggestion Request", "BSR-0001", "Pending for HOD Approval",
    "lib@example.com", "hod@example.com", "conv@example.com",
    some (some "Pending for Duplication Check")⟩

/-- A sample persistent state: the librarian holds a grant and an Open ToDo
on `docW`. -/
def stW : WorldState :=
  ⟨[⟨"Book Suggestion Request", "BSR-0001", "lib@example.com", 1, 1, 1, 1⟩],
    [⟨0, "lib@example.com", "Book Suggestion Request", "BSR-0001",
      "Please review for Duplication Check: BSR-0001", "Open"⟩], 1⟩

/-- `docW` with an unknown workflow state. -/
def docD : BookSuggestionRequest := { docW with workflow_state := "Draft" }

/-- `docW` with the snapshot equal to the current state (no-op save). -/
def docU : BookSuggestionRequest :=
  { docW with previous_workflow_state := some (some "Pending for HOD Approval") }

/-- `docW` with the snapshot attribute never set. -/
def docN : BookSuggestionRequest := { docW with previous_workflow_state := none }

/-- A sample document just moved into the terminal "Approved" state. -/
def docA : BookSuggestionRequest :=
  ⟨"Book Suggestion Request", "BSR-0002", "Approved",
    "lib@example.com", "hod@example.com", "conv@example.com",
    some (some "Pending for Library Convener Approval")⟩

/-- A sample persistent state: the library convener holds a grant and an
Open ToDo on `docA`. -/
def stC : WorldState :=
  ⟨[⟨"Book Suggestion Request", "BSR-0002", "conv@example.com", 1, 0, 1, 1⟩],
    [⟨3, "conv@example.com", "Book Suggestion Request", "BSR-0002",
      "Please review for Library Convener Approval: BSR-0002", "Open"⟩], 4⟩

/-! ### Basic preservation lemmas -/

theorem share_add_todos (st : WorldState) (dt nm u : String) (p : Perms) :
    (share_add st dt nm u p).todos = st.todos := by
  unfold share_add; split <;> rfl

theorem share_add_next (st : WorldState) (dt nm u : String) (p : Perms) :
    (share_add st dt nm u p).next_todo_name = st.next_todo_name := by
  unfold share_add; split <;> rfl

theorem share_remove_todos (st : WorldState) (dt nm u : String) :
    (share_remove st dt nm u).todos = st.todos := rfl

theorem share_remove_next (st : WorldState) (dt nm u : String) :
    (share_remove st dt nm u).next_todo_name = st.next_todo_name := rfl

theorem set_todo_closed_shares (st : WorldState) (n : Nat) :
    (set_todo_closed st n).shares = st.shares := rfl

theorem set_todo_closed_next (st : WorldState) (n : Nat) :
    (set_todo_closed st n).next_todo_name = st.next_todo_name := rfl

theorem close_open_todos_shares (f : Nat → Bool) (ns : List Nat) :
    ∀ (i : Nat) (st : WorldState), (close_open_todos f ns i st).1.shares = st.shares := by
  induction ns with
  | nil => intro i st; rfl
  | cons n rest ih =>
    intro i st
    unfold close_open_todos
    split
    · rfl
    · rw [ih]; rfl

theorem close_open_todos_next (f : Nat → Bool) (ns : List Nat) :
    ∀ (i : Nat) (st : WorldState),
      (close_open_todos f ns i st).1.next_todo_name = st.next_todo_name := by
  induction ns with
  | nil => intro i st; rfl
  | cons n rest ih =>
    intro i st
    unfold close_open_todos
    split
    · rfl
    · rw [ih]; rfl

/-! ### Closing todos, pointwise -/

theorem foldClose_nil (t : ToDo) : foldClose [] t = t := rfl

theorem foldClose_cons (n : Nat) (ns : List Nat) (t : ToDo) :
    foldClose (n :: ns) t = foldClose ns (closeName n t) := rfl

theorem closeName_cases (n : Nat) (t : ToDo) :
    closeName n t = t ∨ closeName n t = { t with status := "Closed" } := by
  unfold closeName; split
  · right; rfl
  · left; rfl

theorem closeName_of_ne (n : Nat) (t : ToDo) (h : t.name ≠ n) : closeName n t = t := by
  unfold closeName
  rw [if_neg]
  simp [h]

theorem closeName_of_eq (n : Nat) (t : ToDo) (h : t.name = n) :
    closeName n t = { t with status := "Closed" } := by
  unfold closeName
  rw [if_pos]
  simp [h]

theorem closeName_of_closed (n : Nat) (t : ToDo) (h : t.status = "Closed") :
    closeName n t = t := by
  unfold closeName
  split
  · cases t
    simp only at h
    rw [h]
  · rfl

theorem foldClose_of_closed (ns : List Nat) (t : ToDo) (h : t.status = "Closed") :
    foldClose ns t = t := by
  induction ns with
  | nil => rfl
  | cons n rest ih => rw [foldClose_cons, closeName_of_closed n t h, ih]

theorem foldClose_of_mem (ns : List Nat) (t : ToDo) (h : t.name ∈ ns) :
    foldClose ns t = { t with status := "Closed" } := by
  induction ns generalizing t with
  | nil => cases h
  | cons n rest ih =>
    rw [foldClose_cons]
    by_cases he : t.name = n
    · rw [closeName_of_eq n t he]
      exact foldClose_of_closed rest _ rfl
    · rw [closeName_of_ne n t he]
      exact ih t (by cases List.mem_cons.1 h with
        | inl h1 => exact absurd h1 he
        | inr h2 => exact h2)

theorem foldClose_of_not_mem (ns : List Nat) (t : ToDo) (h : t.name ∉ ns) :
    foldClose ns t = t := by
  induction ns generalizing t with
  | nil => rfl
  | cons n rest ih =>
    rw [foldClose_cons, closeName_of_ne n t (fun he => h (he ▸ List.mem_cons_self n rest))]
    exact ih t (fun hm => h (List.mem_cons_of_mem n hm))

theorem foldClose_cases (ns : List Nat) (t : ToDo) :
    foldClose ns t = t ∨ foldClose ns t = { t with status := "Closed" } := by
  by_cases h : t.name ∈ ns
  · right; exact foldClose_of_mem ns t h
  · left; exact foldClose_of_not_mem ns t h

theorem close_open_todos_todos_nofault (ns : List Nat) :
    ∀ (i : Nat) (st : WorldState),
      (close_open_todos (fun _ => false) ns i st).1.todos = st.todos.map (foldClose ns) := by
  induction ns with
  | nil =>
    intro i st
    show st.todos = st.todos.map (foldClose [])
    rw [show foldClose [] = fun t => t from rfl, List.map_id']
  | cons n rest ih =>
    intro i st
    show (close_open_todos (fun _ => false) rest (i + 1) (set_todo_closed st n)).1.todos = _
    rw [ih]
    show (st.todos.map (closeName n)).map (foldClose rest) = st.todos.map (foldClose (n :: rest))
    rw [List.map_map]
    rfl

/-! ### Characterization of the fault-free revocation -/

theorem remove_nofault_shares (doc : BookSuggestionRequest) (u : String) (st : WorldState)
    (hu : (u == "") = false) :
    (remove_share_permission noFaults doc u st).1.shares =
      st.shares.filter (fun d => !shareMatch doc.doctype doc.name u d) := by
  unfold remove_share_permission remove_share_try noFaults
  rw [hu]
  simp only [Bool.false_eq_true, if_false]
  rw [close_open_todos_shares]
  rfl

theorem remove_nofault_todos (doc : BookSuggestionRequest) (u : String) (st : WorldState)
    (hu : (u == "") = false) :
    (remove_share_permission noFaults doc u st).1.todos =
      st.todos.map (foldClose (open_todo_names st doc.doctype doc.name u)) := by
  unfold remove_share_permission remove_share_try noFaults
  rw [hu]
  simp only [Bool.false_eq_true, if_false]
  rw [close_open_todos_todos_nofault]
  rfl

theorem remove_nofault_next (doc : BookSuggestionRequest) (u : String) (st : WorldState)
    (hu : (u == "") = false) :
    (remove_share_permission noFaults doc u st).1.next_todo_name = st.next_todo_name := by
  unfold remove_share_permission remove_share_try noFaults
  rw [hu]
  simp only [Bool.false_eq_true, if_false]
  rw [close_open_todos_next]
  rfl

/-! ### Interaction of the match predicates with the close operations -/

theorem todoMatchOpen_closeName (dt nm u : String) (n : Nat) (t : ToDo)
    (h : todoMatchOpen dt nm u (closeName n t) = true) : closeName n t = t := by
  cases closeName_cases n t with
  | inl h1 => exact h1
  | inr h2 =>
    exfalso
    rw [h2] at h
    simp [todoMatchOpen] at h

theorem todoMatchOpen_foldClose (dt nm u : String) (ns : List Nat) (t : ToDo)
    (h : todoMatchOpen dt nm u (foldClose ns t) = true) : foldClose ns t = t := by
  cases foldClose_cases ns t with
  | inl h1 => exact h1
  | inr h2 =>
    exfalso
    rw [h2] at h
    simp [todoMatchOpen] at h

theorem mem_open_todo_names (st : WorldState) (dt nm u : String) (t : ToDo)
    (hm : t ∈ st.todos) (h : todoMatchOpen dt nm u t = true) :
    t.name ∈ open_todo_names st dt nm u := by
  unfold open_todo_names
  exact List.mem_map.2 ⟨t, List.mem_filter.2 ⟨hm, h⟩, rfl⟩

/-- After the fault-free revocation, no Open ToDo for (document, user) remains. -/
theorem remove_nofault_no_open (doc : BookSuggestionRequest) (u : String) (st : WorldState)
    (hu : (u == "") = false) :
    ∀ t ∈ (remove_share_permission noFaults doc u st).1.todos,
      todoMatchOpen doc.doctype doc.name u t = false := by
  intro t ht
  rw [remove_nofault_todos doc u st hu] at ht
  rcases List.mem_map.1 ht with ⟨t0, ht0, rfl⟩
  by_contra hc
  rw [Bool.not_eq_false] at hc
  have heq : foldClose (open_todo_names st doc.doctype doc.name u) t0 = t0 :=
    todoMatchOpen_foldClose _ _ _ _ _ hc
  rw [heq] at hc
  have hmem : t0.name ∈ open_todo_names st doc.doctype doc.name u :=
    mem_open_todo_names st doc.doctype doc.name u t0 ht0 hc
  have hclosed := foldClose_of_mem _ t0 hmem
  rw [heq] at hclosed
  have : t0.status = "Closed" := by rw [hclosed]
  simp [todoMatchOpen, this] at hc

/-! ### Count lemmas -/

theorem openCount_set_todo_closed_le (st : WorldState) (n : Nat) (dt nm u : String) :
    openCount (set_todo_closed st n) dt nm u ≤ openCount st dt nm u := by
  unfold openCount set_todo_closed
  simp only [List.countP_map]
  apply List.countP_mono_left
  intro t _ h
  have h2 : todoMatchOpen dt nm u (closeName n t) = true := h
  rw [todoMatchOpen_closeName dt nm u n t h2] at h2
  exact h2

theorem close_open_todos_openCount_le (f : Nat → Bool) (ns : List Nat) (dt nm u : String) :
    ∀ (i : Nat) (st : WorldState),
      openCount (close_open_todos f ns i st).1 dt nm u ≤ openCount st dt nm u := by
  induction ns with
  | nil => intro i st; exact Nat.le_refl _
  | cons n rest ih =>
    intro i st
    unfold close_open_todos
    split
    · exact Nat.le_refl _
    · exact Nat.le_trans (ih (i + 1) (set_todo_closed st n))
        (openCount_set_todo_closed_le st n dt nm u)

theorem remove_openCount_le (fs : FaultSpec) (doc : BookSuggestionRequest) (u : String)
    (st : WorldState) (dt nm uu : String) :
    openCount (remove_share_permission fs doc u st).1 dt nm uu ≤ openCount st dt nm uu := by
  unfold remove_share_permission remove_share_try
  split
  · exact Nat.le_refl _
  · simp only
    split
    · exact Nat.le_refl _
    · split
      · exact Nat.le_refl _
      · exact close_open_todos_openCount_le _ _ _ _ _ _ _

theorem openCount_share_add (st : WorldState) (dt nm u : String) (p : Perms)
    (dt2 nm2 u2 : String) :
    openCount (share_add st dt nm u p) dt2 nm2 u2 = openCount st dt2 nm2 u2 := by
  unfold openCount
  rw [share_add_todos]

theorem todo_exists_eq_false_iff (st : WorldState) (dt nm u : String) :
    todo_exists st dt nm u = false ↔ openCount st dt nm u = 0 := by
  unfold todo_exists openCount
  rw [List.any_eq_false, List.countP_eq_zero]

/-! ### share_add characterization -/

theorem map_eq_self_of_mem {α : Type} (l : List α) (f : α → α) (h : ∀ a ∈ l, f a = a) :
    l.map f = l := by
  induction l with
  | nil => rfl
  | cons a rest ih =>
    rw [List.map_cons, h a (List.mem_cons_self a rest),
      ih (fun b hb => h b (List.mem_cons_of_mem a hb))]

theorem shareMatch_update (dt2 nm2 u2 : String) (p : Perms) (d : DocShare) :
    shareMatch dt2 nm2 u2
      { d with read := p.read, write := p.write, submit := p.submit, share := p.share } =
      shareMatch dt2 nm2 u2 d := rfl

theorem share_add_preserves_no_match (st : WorldState) (dt nm u : String) (p : Perms)
    (dt2 nm2 u2 : String) (hne : u2 ≠ u)
    (h : ∀ d ∈ st.shares, shareMatch dt2 nm2 u2 d = false) :
    ∀ d ∈ (share_add st dt nm u p).shares, shareMatch dt2 nm2 u2 d = false := by
  intro d hd
  unfold share_add at hd
  split at hd
  · simp only [List.mem_map] at hd
    rcases hd with ⟨d0, hd0, rfl⟩
    by_cases hm : shareMatch dt nm u d0 = true
    · rw [if_pos hm, shareMatch_update]
      exact h d0 hd0
    · rw [if_neg hm]
      exact h d0 hd0
  · simp only [List.mem_append, List.mem_singleton] at hd
    rcases hd with hd | rfl
    · exact h d hd
    · unfold shareMatch
      simp
      exact fun _ _ he => hne he.symm

theorem share_add_exists_match (st : WorldState) (dt nm u : String) (p : Perms) :
    ∃ d, d ∈ (share_add st dt nm u p).shares ∧ shareMatch dt nm u d = true := by
  unfold share_add
  split
  · rename_i h
    rcases List.any_eq_true.1 h with ⟨d0, hd0, hm⟩
    refine ⟨_, List.mem_map_of_mem _ hd0, ?_⟩
    rw [if_pos hm, shareMatch_update]
    exact hm
  · refine ⟨⟨dt, nm, u, p.read, p.write, p.submit, p.share⟩,
      List.mem_append_right _ (List.mem_singleton.2 rfl), ?_⟩
    simp [shareMatch]

theorem share_add_match_perms (st : WorldState) (dt nm u : String) (p : Perms) :
    ∀ d ∈ (share_add st dt nm u p).shares, shareMatch dt nm u d = true →
      d.read = p.read ∧ d.write = p.write ∧ d.submit = p.submit ∧ d.share = p.share := by
  unfold share_add
  split
  · intro d hd hm
    simp only [List.mem_map] at hd
    rcases hd with ⟨d0, hd0, rfl⟩
    by_cases h0 : shareMatch dt nm u d0 = true
    · rw [if_pos h0]
      exact ⟨rfl, rfl, rfl, rfl⟩
    · rw [if_neg h0] at hm
      exact absurd hm h0
  · rename_i h
    intro d hd hm
    simp only [List.mem_append, List.mem_singleton] at hd
    rcases hd with hd | rfl
    · have h2 : st.shares.any (shareMatch dt nm u) = false := Bool.eq_false_iff.2 h
      rw [List.any_eq_false] at h2
      exact absurd hm (h2 d hd)
    · exact ⟨rfl, rfl, rfl, rfl⟩

theorem docshare_update_eq (p : Perms) (d : DocShare)
    (h1 : d.read = p.read) (h2 : d.write = p.write) (h3 : d.submit = p.submit)
    (h4 : d.share = p.share) :
    ({ d with read := p.read, write := p.write, submit := p.submit, share := p.share } :
      DocShare) = d := by
  cases d
  simp only at h1 h2 h3 h4
  rw [h1, h2, h3, h4]

theorem share_add_stable (st : WorldState) (dt nm u : String) (p : Perms)
    (hex : st.shares.any (shareMatch dt nm u) = true)
    (hall : ∀ d ∈ st.shares, shareMatch dt nm u d = true →
      d.read = p.read ∧ d.write = p.write ∧ d.submit = p.submit ∧ d.share = p.share) :
    share_add st dt nm u p = st := by
  unfold share_add
  rw [if_pos hex]
  have hmap : st.shares.map (fun d =>
      if shareMatch dt nm u d then
        { d with read := p.read, write := p.write, submit := p.submit, share := p.share }
      else d) = st.shares := by
    apply map_eq_self_of_mem
    intro d hd
    by_cases hm : shareMatch dt nm u d = true
    · rw [if_pos hm]
      rcases hall d hd hm with ⟨h1, h2, h3, h4⟩
      exact docshare_update_eq p d h1 h2 h3 h4
    · rw [if_neg hm]
  rw [hmap]

/-! ### Idempotence of the grant step -/

theorem new_todo_matches (doc : BookSuggestionRequest) (user : String) (k : Nat) (desc : String) :
    todoMatchOpen doc.doctype doc.name user
      ⟨k, user, doc.doctype, doc.name, desc, "Open"⟩ = true := by
  simp [todoMatchOpen]

theorem share_and_assign_shares (doc : BookSuggestionRequest) (user : String)
    (td : Option String) (p : Perms) (st : WorldState) (hu : (user == "") = false) :
    (share_and_assign doc user td p st).shares =
      (share_add st doc.doctype doc.name user p).shares := by
  unfold share_and_assign
  rw [hu]
  simp only [Bool.false_eq_true, if_false]
  split <;> rfl

theorem share_and_assign_idem (doc : BookSuggestionRequest) (user : String)
    (td : Option String) (p : Perms) (st : WorldState) :
    share_and_assign doc user td p (share_and_assign doc user td p st) =
      share_and_assign doc user td p st := by
  by_cases hu : (user == "") = true
  · unfold share_and_assign
    rw [if_pos hu, if_pos hu]
  · have hu2 : (user == "") = false := Bool.eq_false_iff.2 hu
    set Y := share_and_assign doc user td p st with hY
    have hsh : Y.shares = (share_add st doc.doctype doc.name user p).shares := by
      rw [hY]; exact share_and_assign_shares doc user td p st hu2
    have hexists : ∃ d, d ∈ Y.shares ∧ shareMatch doc.doctype doc.name user d = true := by
      rw [hsh]; exact share_add_exists_match st doc.doctype doc.name user p
    have hperms : ∀ d ∈ Y.shares, shareMatch doc.doctype doc.name user d = true →
        d.read = p.read ∧ d.write = p.write ∧ d.submit = p.submit ∧ d.share = p.share := by
      rw [hsh]; exact share_add_match_perms st doc.doctype doc.name user p
    have hadd : share_add Y doc.doctype doc.name user p = Y := by
      rcases hexists with ⟨d, hd, hm⟩
      exact share_add_stable Y doc.doctype doc.name user p
        (List.any_eq_true.2 ⟨d, hd, hm⟩) hperms
    have hopen : todo_exists Y doc.doctype doc.name user = true := by
      rw [hY]
      unfold share_and_assign
      rw [hu2]
      simp only [Bool.false_eq_true, if_false]
      split
      · rename_i hex
        exact hex
      · unfold todo_exists
        apply List.any_eq_true.2
        refine ⟨_, List.mem_append_right _ (List.mem_singleton.2 rfl), ?_⟩
        exact new_todo_matches doc user _ _
    unfold share_and_assign
    rw [hu2]
    simp only [Bool.false_eq_true, if_false]
    rw [hadd, if_pos hopen]

/-! ### The at-most-one-Open-ToDo invariant -/

theorem countP_todos_append_new (l : List ToDo) (k : Nat)
    (user dt nm desc dt2 nm2 u2 : String) :
    (l ++ [(⟨k, user, dt, nm, desc, "Open"⟩ : ToDo)]).countP (todoMatchOpen dt2 nm2 u2) =
      l.countP (todoMatchOpen dt2 nm2 u2) +
        (if dt = dt2 ∧ nm = nm2 ∧ user = u2 then 1 else 0) := by
  rw [List.countP_append]
  congr 1
  rw [List.countP_cons, List.countP_nil, Nat.zero_add]
  by_cases h : dt = dt2 ∧ nm = nm2 ∧ user = u2
  · rcases h with ⟨h1, h2, h3⟩
    subst h1; subst h2; subst h3
    simp [todoMatchOpen]
  · rw [if_neg h, if_neg]
    intro hm
    apply h
    unfold todoMatchOpen at hm
    simp at hm
    tauto

theorem share_and_assign_preserves_inv (doc : BookSuggestionRequest) (user : String)
    (td : Option String) (p : Perms) (st : WorldState) (h : AtMostOneOpen st) :
    AtMostOneOpen (share_and_assign doc user td p st) := by
  by_cases hu : (user == "") = true
  · unfold share_and_assign
    rw [if_pos hu]
    exact h
  · have hu2 := Bool.eq_false_iff.2 hu
    unfold share_and_assign
    rw [hu2]
    simp only [Bool.false_eq_true, if_false]
    split
    · intro dt nm uu
      rw [openCount_share_add]
      exact h dt nm uu
    · rename_i hnoex
      have hzero : openCount (share_add st doc.doctype doc.name user p)
          doc.doctype doc.name user = 0 :=
        (todo_exists_eq_false_iff _ _ _ _).1 (Bool.eq_false_iff.2 hnoex)
      intro dt nm uu
      show ((share_add st doc.doctype doc.name user p).todos ++
        [(⟨(share_add st doc.doctype doc.name user p).next_todo_name, user, doc.doctype,
          doc.name, "Please review for " ++ tdString td ++ ": " ++ doc.name, "Open"⟩ :
          ToDo)]).countP (todoMatchOpen dt nm uu) ≤ 1
      rw [countP_todos_append_new]
      by_cases hk : doc.doctype = dt ∧ doc.name = nm ∧ user = uu
      · rw [if_pos hk]
        rcases hk with ⟨h1, h2, h3⟩
        have hz2 : (share_add st doc.doctype doc.name user p).todos.countP
            (todoMatchOpen dt nm uu) = 0 := by
          rw [← h1, ← h2, ← h3]
          exact hzero
        rw [hz2]
      · rw [if_neg hk, Nat.add_zero, share_add_todos]
        exact h dt nm uu

theorem remove_preserves_inv (fs : FaultSpec) (doc : BookSuggestionRequest) (u : String)
    (st : WorldState) (h : AtMostOneOpen st) :
    AtMostOneOpen (remove_share_permission fs doc u st).1 := by
  intro dt nm uu
  exact Nat.le_trans (remove_openCount_le fs doc u st dt nm uu) (h dt nm uu)

theorem handle_body_preserves_inv (fs : FaultSpec) (doc : BookSuggestionRequest)
    (st : WorldState) (h : AtMostOneOpen st) :
    AtMostOneOpen (handle_workflow_body fs doc st) := by
  unfold handle_workflow_body
  cases hcfg : WORKFLOW_CONFIG doc.workflow_state with
  | none => exact h
  | some cfg =>
    cases cfg with
    | mk af td pm pf =>
      cases pf with
      | none =>
        cases af with
        | none => exact h
        | some f =>
          show AtMostOneOpen (if (doc.get f == "") = true then st
            else share_and_assign doc (doc.get f) td (pm.getD ⟨1, 0, 0, 0⟩) st)
          split
          · exact h
          · exact share_and_assign_preserves_inv doc _ td _ st h
      | some pfField =>
        have h1 : AtMostOneOpen (if (doc.get pfField == "") = true then st
            else (remove_share_permission fs doc (doc.get pfField) st).1) := by
          split
          · exact h
          · exact remove_preserves_inv fs doc _ st h
        cases af with
        | none => exact h1
        | some f2 =>
          show AtMostOneOpen (if (doc.get f2 == "") = true then
              (if (doc.get pfField == "") = true then st
                else (remove_share_permission fs doc (doc.get pfField) st).1)
            else share_and_assign doc (doc.get f2) td (pm.getD ⟨1, 0, 0, 0⟩)
              (if (doc.get pfField == "") = true then st
                else (remove_share_permission fs doc (doc.get pfField) st).1))
          split
          · exact h1
          · exact share_and_assign_preserves_inv doc _ td _ _ h1

theorem handle_workflow_preserves_inv (fs : FaultSpec) (doc : BookSuggestionRequest)
    (st : WorldState) (h : AtMostOneOpen st) :
    AtMostOneOpen (handle_workflow fs doc st) := by
  unfold handle_workflow
  split
  · exact h
  · exact handle_body_preserves_inv fs doc st h

theorem emptyWorld_inv : AtMostOneOpen emptyWorld := by
  intro dt nm u
  exact Nat.zero_le 1

theorem reachable_inv (st : WorldState) (h : Reachable st) : AtMostOneOpen st := by
  induction h with
  | init => exact emptyWorld_inv
  | step fs doc _ ih => exact handle_workflow_preserves_inv fs doc _ ih

/-! ### Reduction helpers -/

theorem get_field_librarian (doc : BookSuggestionRequest) :
    doc.get "librarian" = doc.librarian := rfl

theorem get_field_hod (doc : BookSuggestionRequest) : doc.get "hod" = doc.hod := rfl

theorem get_field_library_convener (doc : BookSuggestionRequest) :
    doc.get "library_convener" = doc.library_convener := rfl

theorem handle_workflow_of_snapshot_eq (fs : FaultSpec) (doc : BookSuggestionRequest)
    (st : WorldState)
    (h : doc.previous_workflow_state = some (some doc.workflow_state)) :
    handle_workflow fs doc st = st := by
  unfold handle_workflow stateUnchanged
  rw [h]
  simp

theorem stateUnchanged_false_of_ne (doc : BookSuggestionRequest)
    (h : doc.previous_workflow_state ≠ some (some doc.workflow_state)) :
    stateUnchanged doc = false := by
  unfold stateUnchanged
  cases hp : doc.previous_workflow_state with
  | none => rfl
  | some o =>
    cases o with
    | none => rfl
    | some s =>
      rw [beq_eq_false_iff_ne]
      intro he
      exact h (by rw [hp, he])

theorem handle_workflow_of_guard_false (fs : FaultSpec) (doc : BookSuggestionRequest)
    (st : WorldState) (h : stateUnchanged doc = false) :
    handle_workflow fs doc st = handle_workflow_body fs doc st := by
  unfold handle_workflow
  rw [h]
  simp

theorem todo_exists_share_add (st : WorldState) (dt nm u : String) (p : Perms)
    (dt2 nm2 u2 : String) :
    todo_exists (share_add st dt nm u p) dt2 nm2 u2 = todo_exists st dt2 nm2 u2 := by
  unfold todo_exists
  rw [share_add_todos]

theorem share_and_assign_todos_of_not_exists (doc : BookSuggestionRequest) (user : String)
    (td : Option String) (p : Perms) (st : WorldState) (hu : (user == "") = false)
    (hnoex : todo_exists st doc.doctype doc.name user = false) :
    (share_and_assign doc user td p st).todos =
      st.todos ++ [⟨st.next_todo_name, user, doc.doctype, doc.name,
        "Please review for " ++ tdString td ++ ": " ++ doc.name, "Open"⟩] := by
  unfold share_and_assign
  rw [hu]
  simp only [Bool.false_eq_true, if_false]
  have hnoex2 : todo_exists (share_add st doc.doctype doc.name user p)
      doc.doctype doc.name user = false := by
    rw [todo_exists_share_add]
    exact hnoex
  rw [hnoex2]
  simp only [Bool.false_eq_true, if_false]
  show (share_add st doc.doctype doc.name user p).todos ++
      [⟨(share_add st doc.doctype doc.name user p).next_todo_name, user, doc.doctype,
        doc.name, "Please review for " ++ tdString td ++ ": " ++ doc.name, "Open"⟩] = _
  rw [share_add_todos, share_add_next]

theorem share_and_assign_next_of_not_exists (doc : BookSuggestionRequest) (user : String)
    (td : Option String) (p : Perms) (st : WorldState) (hu : (user == "") = false)
    (hnoex : todo_exists st doc.doctype doc.name user = false) :
    (share_and_assign doc user td p st).next_todo_name = st.next_todo_name + 1 := by
  unfold share_and_assign
  rw [hu]
  simp only [Bool.false_eq_true, if_false]
  have hnoex2 : todo_exists (share_add st doc.doctype doc.name user p)
      doc.doctype doc.name user = false := by
    rw [todo_exists_share_add]
    exact hnoex
  rw [hnoex2]
  simp only [Bool.false_eq_true, if_false]
  show (share_add st doc.doctype doc.name user p).next_todo_name + 1 = _
  rw [share_add_next]

theorem handle_workflow_hod_reduction (doc : BookSuggestionRequest) (st : WorldState)
    (h1 : doc.workflow_state = "Pending for HOD Approval")
    (h2 : stateUnchanged doc = false)
    (h3 : (doc.librarian == "") = false)
    (h4 : (doc.hod == "") = false) :
    handle_workflow noFaults doc st =
      share_and_assign doc doc.hod (some "HOD Approval") ⟨1, 0, 1, 1⟩
        ((remove_share_permission noFaults doc doc.librarian st).1) := by
  rw [handle_workflow_of_guard_false _ _ _ h2]
  unfold handle_workflow_body
  rw [h1]
  rw [show WORKFLOW_CONFIG "Pending for HOD Approval" =
    some ⟨some "hod", some "HOD Approval", some ⟨1, 0, 1, 1⟩, some "librarian"⟩ from rfl]
  show (if (doc.hod == "") = true then
      (if (doc.librarian == "") = true then st
        else (remove_share_permission noFaults doc doc.librarian st).1)
    else share_and_assign doc doc.hod (some "HOD Approval") ⟨1, 0, 1, 1⟩
      (if (doc.librarian == "") = true then st
        else (remove_share_permission noFaults doc doc.librarian st).1)) = _
  rw [h3, h4]
  simp only [Bool.false_eq_true, if_false]

theorem handle_workflow_terminal_reduction (doc : BookSuggestionRequest) (st : WorldState)
    (h1 : doc.workflow_state = "Approved" ∨ doc.workflow_state = "Rejected")
    (h2 : stateUnchanged doc = false)
    (h3 : (doc.library_convener == "") = false) :
    handle_workflow noFaults doc st =
      (remove_share_permission noFaults doc doc.library_convener st).1 := by
  rw [handle_workflow_of_guard_false _ _ _ h2]
  unfold handle_workflow_body
  have hcfg : WORKFLOW_CONFIG doc.workflow_state =
      some ⟨none, none, none, some "library_convener"⟩ := by
    rcases h1 with h | h <;> rw [h] <;> rfl
  rw [hcfg]
  show (if (doc.library_convener == "") = true then st
    else (remove_share_permission noFaults doc doc.library_convener st).1) = _
  rw [h3]
  simp only [Bool.false_eq_true, if_false]

theorem mem_remove_shares_no_match (doc : BookSuggestionRequest) (u : String)
    (st : WorldState) (hu : (u == "") = false) :
    ∀ d ∈ (remove_share_permission noFaults doc u st).1.shares,
      shareMatch doc.doctype doc.name u d = false := by
  intro d hd
  rw [remove_nofault_shares doc u st hu] at hd
  rcases List.mem_filter.1 hd with ⟨_, hp⟩
  simpa using hp

/-! ### Claim theorems -/

/-- C3: for every document whose current workflow_state is not a key of
`WORKFLOW_CONFIG`, invoking the dispatch performs zero side effects: the
persistent state (grants and tasks) is returned unchanged (and the dispatch
never writes any document field). -/
theorem c3_unknown_state_no_side_effects (fs : FaultSpec) (doc : BookSuggestionRequest)
    (st : WorldState) (h : WORKFLOW_CONFIG doc.workflow_state = none) :
    handle_workflow fs doc st = st := by
  unfold handle_workflow handle_workflow_body
  rw [h]
  split <;> rfl

/-- Witness for C3 at a concrete unknown state. -/
theorem c3_unknown_state_no_side_effects_witness :
    WORKFLOW_CONFIG docD.workflow_state = none ∧
    handle_workflow noFaults docD stW = stW :=
  ⟨by decide, c3_unknown_state_no_side_effects noFaults docD stW (by decide)⟩

/-- C4: for every save in which `workflow_state` equals the snapshot
`_previous_workflow_state`, the dispatch performs zero side effects: the
persistent state (grants and tasks) is returned unchanged. -/
theorem c4_unchanged_state_no_side_effects (fs : FaultSpec) (doc : BookSuggestionRequest)
    (st : WorldState)
    (h : doc.previous_workflow_state = some (some doc.workflow_state)) :
    handle_workflow fs doc st = st :=
  handle_workflow_of_snapshot_eq fs doc st h

/-- Witness for C4 at a concrete unchanged save. -/
theorem c4_unchanged_state_no_side_effects_witness :
    docU.previous_workflow_state = some (some docU.workflow_state) ∧
    handle_workflow noFaults docU stW = stW :=
  ⟨by decide, c4_unchanged_state_no_side_effects noFaults docU stW (by decide)⟩

/-- C5: `_remove_share_permission` never raises: for every user (including
one never granted access) and every fault environment (any error raised
while removing the grant or while closing Open ToDos), the error is
swallowed and no error propagates to the caller, so the triggering save is
not aborted. -/
theorem c5_revocation_never_raises (fs : FaultSpec) (doc : BookSuggestionRequest)
    (user : String) (st : WorldState) :
    (remove_share_permission fs doc user st).2 = none := by
  unfold remove_share_permission
  split <;> rfl

/-- C7: `before_validate` populates `librarian` and `library_convener` from
the Library Settings record, and raises a user-visible, save-aborting error
when that record does not exist. -/
theorem c7_before_validate_settings (s : LibrarySettings) (doc : BookSuggestionRequest) :
    before_validate (some s) doc =
      .ok { doc with librarian := s.default_librarian,
                     library_convener := s.default_library_convener } ∧
    before_validate none doc =
      .error "Please configure \x27Library Settings\x27 first." :=
  ⟨rfl, rfl⟩

/-- C9: on every invocation, `before_validate` unconditionally overwrites
`librarian` and `library_convener` with the settings defaults regardless of
their prior values, and never writes `hod` (or any other field). -/
theorem c9_before_validate_overwrites (s : LibrarySettings) (doc : BookSuggestionRequest) :
    ∃ d, before_validate (some s) doc = .ok d ∧
      d.librarian = s.default_librarian ∧
      d.library_convener = s.default_library_convener ∧
      d.hod = doc.hod ∧
      d.doctype = doc.doctype ∧
      d.name = doc.name ∧
      d.workflow_state = doc.workflow_state ∧
      d.previous_workflow_state = doc.previous_workflow_state :=
  ⟨_, rfl, rfl, rfl, rfl, rfl, rfl, rfl, rfl⟩

/-- C10: the state-change guard suppresses the dispatch exactly when the
snapshot attribute exists and equals the current state; when the attribute
was never set (`before_save` did not run) or differs, the dispatch body runs
(performing the side effects for the current workflow_state even when the
stored state did not actually change). -/
theorem c10_guard_bypass (fs : FaultSpec) (doc : BookSuggestionRequest) (st : WorldState) :
    (doc.previous_workflow_state ≠ some (some doc.workflow_state) →
      handle_workflow fs doc st = handle_workflow_body fs doc st) ∧
    (doc.previous_workflow_state = some (some doc.workflow_state) →
      handle_workflow fs doc st = st) := by
  constructor
  · intro h
    exact handle_workflow_of_guard_false fs doc st (stateUnchanged_false_of_ne doc h)
  · intro h
    exact handle_workflow_of_snapshot_eq fs doc st h

/-- Witness for C10: with the snapshot attribute absent the dispatch body
runs; with it equal to the current state the dispatch is a no-op. -/
theorem c10_guard_bypass_witness :
    handle_workflow noFaults docN stW = handle_workflow_body noFaults docN stW ∧
    handle_workflow noFaults docU stW = stW :=
  ⟨(c10_guard_bypass noFaults docN stW).1 (by decide),
    (c10_guard_bypass noFaults docU stW).2 (by decide)⟩

/-- C2: every state reachable by any sequence of dispatch operations has at
most one Open ToDo per (document, user) pair, and the grant step
`_share_and_assign` is idempotent: run twice with no intervening change it
creates no duplicate Open ToDo and makes no further grant change. -/
theorem c2_invariant_and_idempotence :
    (∀ st : WorldState, Reachable st → AtMostOneOpen st) ∧
    (∀ (doc : BookSuggestionRequest) (user : String) (td : Option String) (p : Perms)
      (st : WorldState),
      share_and_assign doc user td p (share_and_assign doc user td p st) =
        share_and_assign doc user td p st) :=
  ⟨reachable_inv, share_and_assign_idem⟩

/-- Witness for C2: the invariant at the initial state, and idempotence of a
concrete grant. -/
theorem c2_invariant_and_idempotence_witness :
    AtMostOneOpen emptyWorld ∧
    share_and_assign docW "hod@example.com" (some "HOD Approval") ⟨1, 0, 1, 1⟩
        (share_and_assign docW "hod@example.com" (some "HOD Approval") ⟨1, 0, 1, 1⟩
          emptyWorld) =
      share_and_assign docW "hod@example.com" (some "HOD Approval") ⟨1, 0, 1, 1⟩
        emptyWorld :=
  ⟨c2_invariant_and_idempotence.1 emptyWorld Reachable.init,
    c2_invariant_and_idempotence.2 docW "hod@example.com" (some "HOD Approval")
      ⟨1, 0, 1, 1⟩ emptyWorld⟩

/-- C8: revoking access from user `u` closes exactly the Open ToDos for
(document, u) — deleting none, leaving other users' ToDos, u's already-Closed
ToDos, and every non-status field untouched — and removes exactly u's grant,
leaving every other grant unchanged. -/
theorem c8_revocation_frame (doc : BookSuggestionRequest) (u : String) (st : WorldState)
    (hnd : (st.todos.map ToDo.name).Nodup) (hu : u ≠ "") :
    (remove_share_permission noFaults doc u st).1.todos =
      st.todos.map (closeIfMatch doc.doctype doc.name u) ∧
    (remove_share_permission noFaults doc u st).1.todos.length = st.todos.length ∧
    (remove_share_permission noFaults doc u st).1.shares =
      st.shares.filter (fun d => !shareMatch doc.doctype doc.name u d) := by
  have hub : (u == "") = false := beq_eq_false_iff_ne.2 hu
  have htodos : (remove_share_permission noFaults doc u st).1.todos =
      st.todos.map (closeIfMatch doc.doctype doc.name u) := by
    rw [remove_nofault_todos doc u st hub]
    apply List.map_congr_left
    intro t ht
    by_cases hm : todoMatchOpen doc.doctype doc.name u t = true
    · rw [show closeIfMatch doc.doctype doc.name u t = { t with status := "Closed" } from
        by unfold closeIfMatch; rw [if_pos hm]]
      exact foldClose_of_mem _ t (mem_open_todo_names st _ _ _ t ht hm)
    · have hm2 : todoMatchOpen doc.doctype doc.name u t = false := Bool.eq_false_iff.2 hm
      rw [show closeIfMatch doc.doctype doc.name u t = t from
        by unfold closeIfMatch; rw [hm2]; simp]
      apply foldClose_of_not_mem
      intro hmem
      unfold open_todo_names at hmem
      rcases List.mem_map.1 hmem with ⟨t2, ht2, hname⟩
      rcases List.mem_filter.1 ht2 with ⟨ht2mem, ht2match⟩
      have heq : t2 = t := List.inj_on_of_nodup_map hnd ht2mem ht hname
      rw [heq] at ht2match
      rw [ht2match] at hm2
      exact Bool.noConfusion hm2
  refine ⟨htodos, ?_, remove_nofault_shares doc u st hub⟩
  rw [htodos, List.length_map]

/-- Witness for C8 at a concrete revocation. -/
theorem c8_revocation_frame_witness :
    (stW.todos.map ToDo.name).Nodup ∧ "lib@example.com" ≠ "" ∧
    (remove_share_permission noFaults docW "lib@example.com" stW).1.todos =
      stW.todos.map (closeIfMatch docW.doctype docW.name "lib@example.com") :=
  ⟨by decide, by decide,
    (c8_revocation_frame docW "lib@example.com" stW (by decide) (by decide)).1⟩

/-- C6: a transition into "Approved" or "Rejected" revokes the library
convener's grant and closes that user's Open ToDos on the document, and
creates no new grant (the share list is exactly the old one minus the
convener's entries) and no new ToDo (same number of ToDos, fresh-key counter
untouched). -/
theorem c6_terminal_revocation (doc : BookSuggestionRequest) (st : WorldState)
    (h1 : doc.workflow_state = "Approved" ∨ doc.workflow_state = "Rejected")
    (h2 : stateUnchanged doc = false)
    (h3 : doc.library_convener ≠ "") :
    (handle_workflow noFaults doc st).shares =
      st.shares.filter (fun d => !shareMatch doc.doctype doc.name doc.library_convener d) ∧
    (∀ t ∈ (handle_workflow noFaults doc st).todos,
      todoMatchOpen doc.doctype doc.name doc.library_convener t = false) ∧
    (handle_workflow noFaults doc st).todos.length = st.todos.length ∧
    (handle_workflow noFaults doc st).next_todo_name = st.next_todo_name := by
  have hb : (doc.library_convener == "") = false := beq_eq_false_iff_ne.2 h3
  have hred := handle_workflow_terminal_reduction doc st h1 h2 hb
  refine ⟨?_, ?_, ?_, ?_⟩
  · rw [hred]
    exact remove_nofault_shares doc _ st hb
  · intro t ht
    rw [hred] at ht
    exact remove_nofault_no_open doc _ st hb t ht
  · rw [hred, remove_nofault_todos doc _ st hb, List.length_map]
  · rw [hred]
    exact remove_nofault_next doc _ st hb

/-- Witness for C6 at a concrete "Approved" transition. -/
theorem c6_terminal_revocation_witness :
    stateUnchanged docA = false ∧ docA.library_convener ≠ "" ∧
    (handle_workflow noFaults docA stC).shares =
      stC.shares.filter
        (fun d => !shareMatch docA.doctype docA.name docA.library_convener d) :=
  ⟨by decide, by decide,
    (c6_terminal_revocation docA stC (Or.inl rfl) (by decide) (by decide)).1⟩

/-- C1: on a transition into "Pending for HOD Approval" (with librarian and
hod set and distinct), the dispatch revokes the librarian's grant, leaves no
Open ToDo of the librarian on the document, grants hod exactly
{read 1, write 0, submit 1, share 1}, and — when no Open ToDo for
(document, hod) existed — leaves exactly one Open ToDo for hod, with
description "Please review for HOD Approval: " followed by the document id. -/
theorem c1_hod_transition (doc : BookSuggestionRequest) (st : WorldState)
    (h1 : doc.workflow_state = "Pending for HOD Approval")
    (h2 : stateUnchanged doc = false)
    (h3 : doc.librarian ≠ "")
    (h4 : doc.hod ≠ "")
    (h5 : doc.librarian ≠ doc.hod)
    (h6 : openCount st doc.doctype doc.name doc.hod = 0) :
    (∀ d ∈ (handle_workflow noFaults doc st).shares,
      shareMatch doc.doctype doc.name doc.librarian d = false) ∧
    (∀ t ∈ (handle_workflow noFaults doc st).todos,
      todoMatchOpen doc.doctype doc.name doc.librarian t = false) ∧
    (∃ d, d ∈ (handle_workflow noFaults doc st).shares ∧
      shareMatch doc.doctype doc.name doc.hod d = true) ∧
    (∀ d ∈ (handle_workflow noFaults doc st).shares,
      shareMatch doc.doctype doc.name doc.hod d = true →
        d.read = 1 ∧ d.write = 0 ∧ d.submit = 1 ∧ d.share = 1) ∧
    openCount (handle_workflow noFaults doc st) doc.doctype doc.name doc.hod = 1 ∧
    (∀ t ∈ (handle_workflow noFaults doc st).todos,
      todoMatchOpen doc.doctype doc.name doc.hod t = true →
        t.description = "Please review for HOD Approval: " ++ doc.name) := by
  have hbl : (doc.librarian == "") = false := beq_eq_false_iff_ne.2 h3
  have hbh : (doc.hod == "") = false := beq_eq_false_iff_ne.2 h4
  have hred := handle_workflow_hod_reduction doc st h1 h2 hbl hbh
  have hz : openCount (remove_share_permission noFaults doc doc.librarian st).1
      doc.doctype doc.name doc.hod = 0 :=
    Nat.le_zero.1 (h6 ▸ remove_openCount_le noFaults doc doc.librarian st _ _ _)
  have hz2 : (remove_share_permission noFaults doc doc.librarian st).1.todos.countP
      (todoMatchOpen doc.doctype doc.name doc.hod) = 0 := hz
  have hnoex : todo_exists (remove_share_permission noFaults doc doc.librarian st).1
      doc.doctype doc.name doc.hod = false :=
    (todo_exists_eq_false_iff _ _ _ _).2 hz
  have hsh : (handle_workflow noFaults doc st).shares =
      (share_add (remove_share_permission noFaults doc doc.librarian st).1
        doc.doctype doc.name doc.hod ⟨1, 0, 1, 1⟩).shares := by
    rw [hred]
    exact share_and_assign_shares doc doc.hod _ _ _ hbh
  have htd : (handle_workflow noFaults doc st).todos =
      (remove_share_permission noFaults doc doc.librarian st).1.todos ++
        [⟨(remove_share_permission noFaults doc doc.librarian st).1.next_todo_name,
          doc.hod, doc.doctype, doc.name,
          "Please review for " ++ tdString (some "HOD Approval") ++ ": " ++ doc.name,
          "Open"⟩] := by
    rw [hred]
    exact share_and_assign_todos_of_not_exists doc doc.hod _ _ _ hbh hnoex
  refine ⟨?_, ?_, ?_, ?_, ?_, ?_⟩
  · intro d hd
    rw [hsh] at hd
    exact share_add_preserves_no_match
      (remove_share_permission noFaults doc doc.librarian st).1
      doc.doctype doc.name doc.hod ⟨1, 0, 1, 1⟩ doc.doctype doc.name doc.librarian h5
      (mem_remove_shares_no_match doc doc.librarian st hbl) d hd
  · intro t ht
    rw [htd] at ht
    rcases List.mem_append.1 ht with ht | ht
    · exact remove_nofault_no_open doc doc.librarian st hbl t ht
    · rw [List.mem_singleton.1 ht]
      have hne2 : (doc.hod == doc.librarian) = false :=
        beq_eq_false_iff_ne.2 (fun he => h5 he.symm)
      unfold todoMatchOpen
      simp [hne2]
  · rcases share_add_exists_match (remove_share_permission noFaults doc doc.librarian st).1
      doc.doctype doc.name doc.hod ⟨1, 0, 1, 1⟩ with ⟨d, hd, hm⟩
    refine ⟨d, ?_, hm⟩
    rw [hsh]
    exact hd
  · intro d hd hm
    rw [hsh] at hd
    exact share_add_match_perms _ _ _ _ _ d hd hm
  · unfold openCount
    rw [htd, countP_todos_append_new, hz2, if_pos ⟨rfl, rfl, rfl⟩]
  · intro t ht hm
    rw [htd] at ht
    rcases List.mem_append.1 ht with ht | ht
    · exact absurd hm (List.countP_eq_zero.1 hz2 t ht)
    · rw [List.mem_singleton.1 ht]
      show "Please review for " ++ tdString (some "HOD Approval") ++ ": " ++ doc.name = _
      rw [show "Please review for " ++ tdString (some "HOD Approval") ++ ": " =
        "Please review for HOD Approval: " from by decide]

/-- Witness for C1 at a concrete HOD transition. -/
theorem c1_hod_transition_witness :
    stateUnchanged docW = false ∧ docW.librarian ≠ docW.hod ∧
    openCount stW docW.doctype docW.name docW.hod = 0 ∧
    openCount (handle_workflow noFaults docW stW) docW.doctype docW.name docW.hod = 1 :=
  ⟨by decide, by decide, by decide,
    (c1_hod_transition docW stW rfl (by decide) (by decide) (by decide) (by decide)
      (by decide)).2.2.2.2.1⟩
